import Mathlib

/-!
Verification of the `booleanfield` core (src/booleanfield_dod.rs): a
nullable boolean column state packed into a single integer code, with a
codec between codes and (not_null, default, value) triples, mutators
enforcing the NOT-NULL repair and default-substitution rules, tri-state
logical operators, and SQL type rendering.

The Rust `PackedBooleanData(u8)` is embedded as a `Nat` code.  Rust
functions that can panic (`get_full_state`'s `expect`, the `unwrap`s on
`encode_state` inside the mutators and operators) are embedded as
`Option`-valued functions, `none` standing for the panic.  `&mut`
mutation is embedded as state-in/state-out.
-/

deriving instance DecidableEq for Except

/-- The three states of a boolean field (Rust `enum OptionBool`). -/
inductive OptionBool where
  | True
  | False
  | Null
deriving DecidableEq, BEq, Repr

/-- Rust `impl From<Option<bool>> for OptionBool`. -/
def OptionBool.fromOption (opt : Option Bool) : OptionBool :=
  match opt with
  | some true => OptionBool.True
  | some false => OptionBool.False
  | none => OptionBool.Null

/-- Rust `impl From<OptionBool> for Option<bool>`. -/
def OptionBool.toOption (ob : OptionBool) : Option Bool :=
  match ob with
  | OptionBool.True => some true
  | OptionBool.False => some false
  | OptionBool.Null => none

instance : Fintype OptionBool where
  elems := {OptionBool.True, OptionBool.False, OptionBool.Null}
  complete := by intro x; cases x <;> decide

/-- Rust `encode_state`: encodes (not_null, default, value) into a single
code for the 13 valid states; any other combination is an error. -/
def encode_state (not_null : Bool) (default : OptionBool) (value : OptionBool) :
    Except String Nat :=
  match not_null, default, value with
  | false, OptionBool.False, OptionBool.False => Except.ok 0
  | false, OptionBool.False, OptionBool.True => Except.ok 1
  | false, OptionBool.False, OptionBool.Null => Except.ok 2
  | false, OptionBool.True, OptionBool.False => Except.ok 4
  | false, OptionBool.True, OptionBool.True => Except.ok 5
  | false, OptionBool.True, OptionBool.Null => Except.ok 6
  | false, OptionBool.Null, OptionBool.False => Except.ok 8
  | false, OptionBool.Null, OptionBool.True => Except.ok 9
  | false, OptionBool.Null, OptionBool.Null => Except.ok 10
  | true, OptionBool.False, OptionBool.False => Except.ok 16
  | true, OptionBool.False, OptionBool.True => Except.ok 17
  | true, OptionBool.True, OptionBool.False => Except.ok 20
  | true, OptionBool.True, OptionBool.True => Except.ok 21
  | _, _, _ => Except.error "Invalid state combination"

/-- Rust `decode_state`: decodes a code into its components
(not_null, default, value); codes outside the table are errors. -/
def decode_state (state : Nat) : Except String (Bool × OptionBool × OptionBool) :=
  match state with
  | 0 => Except.ok (false, OptionBool.False, OptionBool.False)
  | 1 => Except.ok (false, OptionBool.False, OptionBool.True)
  | 2 => Except.ok (false, OptionBool.False, OptionBool.Null)
  | 4 => Except.ok (false, OptionBool.True, OptionBool.False)
  | 5 => Except.ok (false, OptionBool.True, OptionBool.True)
  | 6 => Except.ok (false, OptionBool.True, OptionBool.Null)
  | 8 => Except.ok (false, OptionBool.Null, OptionBool.False)
  | 9 => Except.ok (false, OptionBool.Null, OptionBool.True)
  | 10 => Except.ok (false, OptionBool.Null, OptionBool.Null)
  | 16 => Except.ok (true, OptionBool.False, OptionBool.False)
  | 17 => Except.ok (true, OptionBool.False, OptionBool.True)
  | 20 => Except.ok (true, OptionBool.True, OptionBool.False)
  | 21 => Except.ok (true, OptionBool.True, OptionBool.True)
  | _ => Except.error "Invalid packed state"

/-- A state is legal when its code decodes (one of the 13 valid codes). -/
def isLegal (s : Nat) : Bool :=
  (decode_state s).toOption.isSome

namespace PackedBooleanData

/-- Rust `impl Default for PackedBooleanData`: the default state is
(not_null=false, default=Null, value=Null), code 10. -/
def default : Nat := 10

/-- Rust `PackedBooleanData::get_full_state`: decodes the held code;
panics (`none`) if the internal state is invalid. -/
def get_full_state (s : Nat) : Option (Bool × OptionBool × OptionBool) :=
  (decode_state s).toOption

/-- Rust `PackedBooleanData::value`. -/
def value (s : Nat) : Option (Option Bool) :=
  (get_full_state s).map (fun t => OptionBool.toOption t.2.2)

/-- Rust `PackedBooleanData::default_value`. -/
def default_value (s : Nat) : Option (Option Bool) :=
  (get_full_state s).map (fun t => OptionBool.toOption t.2.1)

/-- Rust `PackedBooleanData::not_null`. -/
def not_null (s : Nat) : Option Bool :=
  (get_full_state s).map (fun t => t.1)

end PackedBooleanData

/-- Rust `BooleanDataView::get_value`. -/
def BooleanDataView.get_value (s : Nat) : Option (Option Bool) :=
  PackedBooleanData.value s

namespace BooleanOps

/-- Rust `BooleanOps::new_data`. -/
def new_data : Nat := PackedBooleanData.default

/-- Rust `BooleanOps::set_not_null`: repairs a Null default to False and a
Null value to the (repaired) default, then re-encodes with not_null=true. -/
def set_not_null (data : Nat) : Option Nat :=
  match PackedBooleanData.get_full_state data with
  | none => none
  | some (_, default0, value0) =>
    let default1 := if default0 = OptionBool.Null then OptionBool.False else default0
    let value1 := if value0 = OptionBool.Null then default1 else value0
    (encode_state true default1 value1).toOption

/-- Rust `BooleanOps::set_default`: a Null value adopts the new default;
not_null is preserved. -/
def set_default (data : Nat) (new_default : Bool) : Option Nat :=
  match PackedBooleanData.get_full_state data with
  | none => none
  | some (not_null0, _, value0) =>
    let new_default_ob := OptionBool.fromOption (some new_default)
    let value1 := if value0 = OptionBool.Null then new_default_ob else value0
    (encode_state not_null0 new_default_ob value1).toOption

/-- Rust `BooleanOps::set_value`: returns the data after the call together
with the returned error, if any (`none` in the second component = `Ok`). -/
def set_value (data : Nat) (value : Option Bool) : Option (Nat × Option String) :=
  match PackedBooleanData.get_full_state data with
  | none => none
  | some (not_null0, default0, _) =>
    let new_value_ob := OptionBool.fromOption value
    if not_null0 && (new_value_ob == OptionBool.Null) then
      some (data, some "Field cannot be NULL")
    else
      match encode_state not_null0 default0 new_value_ob with
      | Except.ok new_state => some (new_state, none)
      | Except.error e => some (data, some e)

/-- Rust `BooleanOps::and`: three-state logical AND; the result inherits
not_null and default from `a`. -/
def and (a b : Nat) : Option Nat := do
  let va ← PackedBooleanData.value a
  let vb ← PackedBooleanData.value b
  let v : Option Bool :=
    match va, vb with
    | some true, some true => some true
    | _, some false => some false
    | some false, _ => some false
    | _, _ => none
  let (not_null0, default0, _) ← PackedBooleanData.get_full_state a
  (encode_state not_null0 default0 (OptionBool.fromOption v)).toOption

/-- Rust `BooleanOps::or`: three-state logical OR; the result inherits
not_null and default from `a`. -/
def or (a b : Nat) : Option Nat := do
  let va ← PackedBooleanData.value a
  let vb ← PackedBooleanData.value b
  let v : Option Bool :=
    match va, vb with
    | some true, _ => some true
    | _, some true => some true
    | some false, some false => some false
    | _, _ => none
  let (not_null0, default0, _) ← PackedBooleanData.get_full_state a
  (encode_state not_null0 default0 (OptionBool.fromOption v)).toOption

/-- Rust `BooleanOps::not`: three-state logical NOT; the result inherits
not_null and default. -/
def not (data : Nat) : Option Nat := do
  let va ← PackedBooleanData.value data
  let v : Option Bool := va.map (fun val => !val)
  let (not_null0, default0, _) ← PackedBooleanData.get_full_state data
  (encode_state not_null0 default0 (OptionBool.fromOption v)).toOption

/-- Rust `BooleanOps::to_sql`: "BOOLEAN", then " NOT NULL" when the
constraint is set, then " DEFAULT TRUE"/" DEFAULT FALSE" when the default
is non-Null. -/
def to_sql (data : Nat) : Option String := do
  let sql0 := "BOOLEAN"
  let nn ← PackedBooleanData.not_null data
  let sql1 := if nn then sql0 ++ " NOT NULL" else sql0
  let dv ← PackedBooleanData.default_value data
  let sql2 :=
    match dv with
    | some default_val =>
      (sql1 ++ " DEFAULT ") ++ (if default_val then "TRUE" else "FALSE")
    | none => sql1
  pure sql2

end BooleanOps

/-- Follows the spec's words for SQL three-valued AND:
True iff both True; False if either is False; else Null. -/
def spec_and3 (x y : Option Bool) : Option Bool :=
  if x = some true ∧ y = some true then some true
  else if x = some false ∨ y = some false then some false
  else none

/-- Follows the spec's words for SQL three-valued OR:
True if either is True; False iff both False; else Null. -/
def spec_or3 (x y : Option Bool) : Option Bool :=
  if x = some true ∨ y = some true then some true
  else if x = some false ∧ y = some false then some false
  else none

/-- Follows the spec's words for SQL three-valued NOT:
flips True/False; Null stays Null. -/
def spec_not3 (x : Option Bool) : Option Bool :=
  x.map (fun b => !b)

/-- States reachable from default construction via the mutators and the
(successfully returning) logical operators. -/
inductive Reachable : Nat → Prop where
  | init : Reachable BooleanOps.new_data
  | not_null_step {s s2 : Nat} : Reachable s →
      BooleanOps.set_not_null s = some s2 → Reachable s2
  | default_step {s s2 : Nat} {b : Bool} : Reachable s →
      BooleanOps.set_default s b = some s2 → Reachable s2
  | value_step {s s2 : Nat} {v : Option Bool} {e : Option String} : Reachable s →
      BooleanOps.set_value s v = some (s2, e) → Reachable s2
  | and_step {a b s2 : Nat} : Reachable a → Reachable b →
      BooleanOps.and a b = some s2 → Reachable s2
  | or_step {a b s2 : Nat} : Reachable a → Reachable b →
      BooleanOps.or a b = some s2 → Reachable s2
  | not_step {a s2 : Nat} : Reachable a →
      BooleanOps.not a = some s2 → Reachable s2

-- Helper lemmas about legality.

lemma isLegal_cases (s : Nat) (h : isLegal s = true) :
    s = 0 ∨ s = 1 ∨ s = 2 ∨ s = 4 ∨ s = 5 ∨ s = 6 ∨ s = 8 ∨ s = 9 ∨
    s = 10 ∨ s = 16 ∨ s = 17 ∨ s = 20 ∨ s = 21 := by
  unfold isLegal decode_state at h
  split at h <;> first | decide | simp [Except.toOption] at h

lemma isLegal_lt (s : Nat) (h : isLegal s = true) : s < 22 := by
  rcases isLegal_cases s h with h | h | h | h | h | h | h | h | h | h | h | h | h <;> omega

lemma decode_isOk_iff (c : Nat) :
    (decode_state c).toOption.isSome = true ↔
    (c = 0 ∨ c = 1 ∨ c = 2 ∨ c = 4 ∨ c = 5 ∨ c = 6 ∨ c = 8 ∨ c = 9 ∨
     c = 10 ∨ c = 16 ∨ c = 17 ∨ c = 20 ∨ c = 21) := by
  constructor
  · intro h
    exact isLegal_cases c h
  · rintro (rfl | rfl | rfl | rfl | rfl | rfl | rfl | rfl | rfl | rfl | rfl | rfl | rfl) <;>
      decide

/-- C3: the codec realises the fixed 13-row table as a bijection: encode
succeeds exactly on the 13 legal triples (those where not_null=true pairs
with no Null component) and returns exactly the listed codes; decode is
the exact inverse, failing on every integer outside the 13 codes; and
decode(encode(t)) = t for every triple that encode accepts. -/
theorem C3_codec_bijection :
    (∀ (nn : Bool) (d v : OptionBool),
      (encode_state nn d v).toOption.isSome = true ↔
        ¬ (nn = true ∧ (d = OptionBool.Null ∨ v = OptionBool.Null)))
    ∧ (encode_state false OptionBool.False OptionBool.False = Except.ok 0
       ∧ encode_state false OptionBool.False OptionBool.True = Except.ok 1
       ∧ encode_state false OptionBool.False OptionBool.Null = Except.ok 2
       ∧ encode_state false OptionBool.True OptionBool.False = Except.ok 4
       ∧ encode_state false OptionBool.True OptionBool.True = Except.ok 5
       ∧ encode_state false OptionBool.True OptionBool.Null = Except.ok 6
       ∧ encode_state false OptionBool.Null OptionBool.False = Except.ok 8
       ∧ encode_state false OptionBool.Null OptionBool.True = Except.ok 9
       ∧ encode_state false OptionBool.Null OptionBool.Null = Except.ok 10
       ∧ encode_state true OptionBool.False OptionBool.False = Except.ok 16
       ∧ encode_state true OptionBool.False OptionBool.True = Except.ok 17
       ∧ encode_state true OptionBool.True OptionBool.False = Except.ok 20
       ∧ encode_state true OptionBool.True OptionBool.True = Except.ok 21)
    ∧ (∀ c : Nat, (decode_state c).toOption.isSome = true ↔
        (c = 0 ∨ c = 1 ∨ c = 2 ∨ c = 4 ∨ c = 5 ∨ c = 6 ∨ c = 8 ∨ c = 9 ∨
         c = 10 ∨ c = 16 ∨ c = 17 ∨ c = 20 ∨ c = 21))
    ∧ (∀ (nn : Bool) (d v : OptionBool) (c : Nat),
        encode_state nn d v = Except.ok c → decode_state c = Except.ok (nn, d, v)) := by
  refine ⟨by decide, by decide, decode_isOk_iff, ?_⟩
  intro nn d v c h
  cases nn <;> cases d <;> cases v <;> simp [encode_state] at h <;> subst h <;> decide

/-- Witness for C3: the round-trip conjunct applied at the concrete triple
(true, True, True), whose code is 21. -/
theorem C3_codec_bijection_witness :
    decode_state 21 = Except.ok (true, OptionBool.True, OptionBool.True) :=
  C3_codec_bijection.2.2.2 true OptionBool.True OptionBool.True 21 (by decide)

/-- C10: for every single legal state a, NOT(a) never fails: its internal
encode always succeeds, including for the four not_null=true states. -/
theorem C10_not_never_fails (a : Nat) (h : isLegal a = true) :
    (BooleanOps.not a).isSome = true := by
  rcases isLegal_cases a h with rfl | rfl | rfl | rfl | rfl | rfl | rfl | rfl | rfl |
    rfl | rfl | rfl | rfl <;> decide

/-- Witness for C10 at the legal not_null state 21. -/
theorem C10_not_never_fails_witness : (BooleanOps.not 21).isSome = true :=
  C10_not_never_fails 21 (by decide)

/-- Counterexample to C1: codes 17 (not_null=true, default=False,
value=True) and 10 (nullable, value=Null) are both legal, yet AND(17,10)
computes value Null, its re-encode with not_null=true fails, and the
operator panics (`none`). -/
theorem C1_counterexample :
    isLegal 17 = true ∧ isLegal 10 = true ∧ BooleanOps.and 17 10 = none := by
  decide

/-- C1 (amended): for legal states a and b, the re-encode inside NOT(a)
always succeeds; the one inside AND(a,b) succeeds iff not
(a.not_null ∧ a.value=True ∧ b.value=Null); the one inside OR(a,b)
succeeds iff not (a.not_null ∧ a.value=False ∧ b.value=Null) — so a
computed Null can arise with a.not_null=true, through b. -/
theorem C1_operator_encode_characterisation (a b : Nat)
    (ha : isLegal a = true) (hb : isLegal b = true) :
    ((BooleanOps.and a b).isSome = true ↔
      ¬ (PackedBooleanData.not_null a = some true ∧
         PackedBooleanData.value a = some (some true) ∧
         PackedBooleanData.value b = some none))
    ∧ ((BooleanOps.or a b).isSome = true ↔
      ¬ (PackedBooleanData.not_null a = some true ∧
         PackedBooleanData.value a = some (some false) ∧
         PackedBooleanData.value b = some none))
    ∧ (BooleanOps.not a).isSome = true := by
  rcases isLegal_cases a ha with rfl | rfl | rfl | rfl | rfl | rfl | rfl | rfl | rfl |
    rfl | rfl | rfl | rfl <;>
  rcases isLegal_cases b hb with rfl | rfl | rfl | rfl | rfl | rfl | rfl | rfl | rfl |
    rfl | rfl | rfl | rfl <;> decide

/-- Witness for C1's amended theorem at the legal pair (17, 10). -/
theorem C1_operator_encode_characterisation_witness :
    (BooleanOps.not 17).isSome = true :=
  (C1_operator_encode_characterisation 17 10 (by decide) (by decide)).2.2

/-- Counterexample to C2: from the default-constructed state, set_not_null
followed by set_default(true) does not leave get_value() = Some(true). -/
theorem C2_counterexample :
    ((BooleanOps.set_not_null BooleanOps.new_data).bind
        (fun s => BooleanOps.set_default s true)).bind BooleanDataView.get_value ≠
      some (some true) := by
  decide

/-- C2 (amended): from the default-constructed state, set_not_null repairs
the value to the repaired default False, and set_default(true) keeps the
now non-Null value, so get_value() returns Some(false). -/
theorem C2_repair_then_default :
    ((BooleanOps.set_not_null BooleanOps.new_data).bind
        (fun s => BooleanOps.set_default s true)).bind BooleanDataView.get_value =
      some (some false) := by
  decide

/-- C4: for every legal state, set_value(new_value) returns the "Field
cannot be NULL" error iff not_null is true and new_value is Null, leaving
the stored state unchanged in that case; otherwise it succeeds and the
resulting state holds the new value with not_null and default preserved. -/
theorem C4_set_value_spec (s : Nat) (h : isLegal s = true) (v : Option Bool) :
    (BooleanOps.set_value s v = some (s, some "Field cannot be NULL") ↔
      (PackedBooleanData.not_null s = some true ∧ v = none))
    ∧ (¬ (PackedBooleanData.not_null s = some true ∧ v = none) →
        (BooleanOps.set_value s v).map Prod.snd = some none
        ∧ ((BooleanOps.set_value s v).map Prod.fst).bind PackedBooleanData.value =
            some v
        ∧ ((BooleanOps.set_value s v).map Prod.fst).bind PackedBooleanData.not_null =
            PackedBooleanData.not_null s
        ∧ ((BooleanOps.set_value s v).map Prod.fst).bind PackedBooleanData.default_value =
            PackedBooleanData.default_value s) := by
  rcases isLegal_cases s h with rfl | rfl | rfl | rfl | rfl | rfl | rfl | rfl | rfl |
    rfl | rfl | rfl | rfl <;> rcases v with _ | b <;> (try cases b) <;> decide

/-- Witness for C4: at the legal not_null state 16, set_value(Null) fails
with the constraint error and leaves the state at 16. -/
theorem C4_set_value_spec_witness :
    BooleanOps.set_value 16 none = some (16, some "Field cannot be NULL") :=
  (C4_set_value_spec 16 (by decide) none).1.mpr (by decide)

/-- C6: for every legal state, set_not_null performs exactly the repair
transition — a Null default becomes False, a Null value becomes the
(possibly just-repaired) default, not_null becomes true — and it has no
error path: its internal encode always succeeds. -/
theorem C6_set_not_null_spec (s : Nat) (h : isLegal s = true) :
    (BooleanOps.set_not_null s).isSome = true
    ∧ (BooleanOps.set_not_null s).bind PackedBooleanData.not_null = some true
    ∧ (BooleanOps.set_not_null s).bind PackedBooleanData.default_value =
        (PackedBooleanData.default_value s).map (fun d => some (d.getD false))
    ∧ (BooleanOps.set_not_null s).bind PackedBooleanData.value =
        (PackedBooleanData.default_value s).bind (fun d =>
          (PackedBooleanData.value s).map (fun v => some (v.getD (d.getD false)))) := by
  rcases isLegal_cases s h with rfl | rfl | rfl | rfl | rfl | rfl | rfl | rfl | rfl |
    rfl | rfl | rfl | rfl <;> decide

/-- Witness for C6 at the default-constructed state 10. -/
theorem C6_set_not_null_spec_witness : (BooleanOps.set_not_null 10).isSome = true :=
  (C6_set_not_null_spec 10 (by decide)).1

/-- C7: for every legal state and boolean new_default, set_default sets the
default to new_default, replaces the value with new_default exactly when
the current value is Null, preserves not_null, and never fails. -/
theorem C7_set_default_spec (s : Nat) (h : isLegal s = true) (nd : Bool) :
    (BooleanOps.set_default s nd).isSome = true
    ∧ (BooleanOps.set_default s nd).bind PackedBooleanData.not_null =
        PackedBooleanData.not_null s
    ∧ (BooleanOps.set_default s nd).bind PackedBooleanData.default_value =
        some (some nd)
    ∧ (BooleanOps.set_default s nd).bind PackedBooleanData.value =
        (PackedBooleanData.value s).map (fun v => some (v.getD nd)) := by
  rcases isLegal_cases s h with rfl | rfl | rfl | rfl | rfl | rfl | rfl | rfl | rfl |
    rfl | rfl | rfl | rfl <;> cases nd <;> decide

/-- Witness for C7 at state 10 with new_default = true. -/
theorem C7_set_default_spec_witness : (BooleanOps.set_default 10 true).isSome = true :=
  (C7_set_default_spec 10 (by decide) true).1

/-- C8: for legal a and b, whenever AND/OR/NOT return a result, its value
component follows the SQL three-valued truth tables (spec_and3, spec_or3,
spec_not3) and its not_null and default components are copied from a. -/
theorem C8_operators_follow_sql3 (a b : Nat)
    (ha : isLegal a = true) (hb : isLegal b = true) :
    (BooleanOps.and a b).all (fun s2 =>
        (PackedBooleanData.value s2 ==
          some (spec_and3 ((PackedBooleanData.value a).getD none)
                          ((PackedBooleanData.value b).getD none)))
        && (PackedBooleanData.not_null s2 == PackedBooleanData.not_null a)
        && (PackedBooleanData.default_value s2 == PackedBooleanData.default_value a)) = true
    ∧ (BooleanOps.or a b).all (fun s2 =>
        (PackedBooleanData.value s2 ==
          some (spec_or3 ((PackedBooleanData.value a).getD none)
                         ((PackedBooleanData.value b).getD none)))
        && (PackedBooleanData.not_null s2 == PackedBooleanData.not_null a)
        && (PackedBooleanData.default_value s2 == PackedBooleanData.default_value a)) = true
    ∧ (BooleanOps.not a).all (fun s2 =>
        (PackedBooleanData.value s2 ==
          some (spec_not3 ((PackedBooleanData.value a).getD none)))
        && (PackedBooleanData.not_null s2 == PackedBooleanData.not_null a)
        && (PackedBooleanData.default_value s2 == PackedBooleanData.default_value a)) = true := by
  rcases isLegal_cases a ha with rfl | rfl | rfl | rfl | rfl | rfl | rfl | rfl | rfl |
    rfl | rfl | rfl | rfl <;>
  rcases isLegal_cases b hb with rfl | rfl | rfl | rfl | rfl | rfl | rfl | rfl | rfl |
    rfl | rfl | rfl | rfl <;> decide

/-- Witness for C8 at the legal pair (21, 10): NOT(21) flips the value to
False while copying not_null and default from 21. -/
theorem C8_operators_follow_sql3_witness :
    (BooleanOps.not 21).all (fun s2 =>
        (PackedBooleanData.value s2 ==
          some (spec_not3 ((PackedBooleanData.value 21).getD none)))
        && (PackedBooleanData.not_null s2 == PackedBooleanData.not_null 21)
        && (PackedBooleanData.default_value s2 == PackedBooleanData.default_value 21)) = true :=
  (C8_operators_follow_sql3 21 10 (by decide) (by decide)).2.2

/-- C9: for every legal state, to_sql returns "BOOLEAN", then " NOT NULL"
exactly when not_null is true, then " DEFAULT TRUE"/" DEFAULT FALSE"
exactly when the default is True/False, in that fixed order; in particular
"BOOLEAN NOT NULL DEFAULT TRUE" for (not_null=true, default=True) and
"BOOLEAN" for (not_null=false, default=Null). -/
theorem C9_to_sql_spec :
    (∀ s, isLegal s = true →
      BooleanOps.to_sql s = some
        ("BOOLEAN"
          ++ (if PackedBooleanData.not_null s = some true then " NOT NULL" else "")
          ++ (match (PackedBooleanData.default_value s).getD none with
              | some true => " DEFAULT TRUE"
              | some false => " DEFAULT FALSE"
              | none => "")))
    ∧ BooleanOps.to_sql 21 = some "BOOLEAN NOT NULL DEFAULT TRUE"
    ∧ BooleanOps.to_sql 20 = some "BOOLEAN NOT NULL DEFAULT TRUE"
    ∧ BooleanOps.to_sql 10 = some "BOOLEAN" := by
  refine ⟨?_, by decide, by decide, by decide⟩
  intro s h
  rcases isLegal_cases s h with rfl | rfl | rfl | rfl | rfl | rfl | rfl | rfl | rfl |
    rfl | rfl | rfl | rfl <;> decide

/-- Witness for C9 at the legal state 0 (nullable, default False). -/
theorem C9_to_sql_spec_witness :
    BooleanOps.to_sql 0 = some
      ("BOOLEAN"
        ++ (if PackedBooleanData.not_null 0 = some true then " NOT NULL" else "")
        ++ (match (PackedBooleanData.default_value 0).getD none with
            | some true => " DEFAULT TRUE"
            | some false => " DEFAULT FALSE"
            | none => "")) :=
  C9_to_sql_spec.1 0 (by decide)

lemma steps_preserve_legal (s : Nat) (h : isLegal s = true) :
    (BooleanOps.set_not_null s).all isLegal = true
    ∧ (∀ b : Bool, (BooleanOps.set_default s b).all isLegal = true)
    ∧ (∀ v : Option Bool, (BooleanOps.set_value s v).all (fun p => isLegal p.1) = true)
    ∧ (∀ t, t < 22 → isLegal t = true →
        (BooleanOps.and s t).all isLegal = true ∧ (BooleanOps.or s t).all isLegal = true)
    ∧ (BooleanOps.not s).all isLegal = true := by
  rcases isLegal_cases s h with rfl | rfl | rfl | rfl | rfl | rfl | rfl | rfl | rfl |
    rfl | rfl | rfl | rfl <;> decide

/-- C5: every state reachable from default construction (code 10) via the
mutators and the (successfully returning) logical operators holds one of
the 13 legal codes; in particular, whenever not_null is true, neither the
value nor the default is Null, and decoding the held code never fails. -/
theorem C5_reachable_states_legal (s : Nat) (h : Reachable s) :
    isLegal s = true
    ∧ (PackedBooleanData.not_null s = some true →
        PackedBooleanData.default_value s ≠ some none ∧
        PackedBooleanData.value s ≠ some none)
    ∧ (decode_state s).toOption.isSome = true := by
  have key : isLegal s = true := by
    induction h with
    | init => decide
    | not_null_step hr he ih =>
        have hp := (steps_preserve_legal _ ih).1
        rw [he] at hp
        simpa [Option.all] using hp
    | default_step hr he ih =>
        rename_i s0 s2 b0
        have hp := (steps_preserve_legal s0 ih).2.1 b0
        rw [he] at hp
        simpa [Option.all] using hp
    | value_step hr he ih =>
        rename_i s0 s2 v0 e0
        have hp := (steps_preserve_legal s0 ih).2.2.1 v0
        rw [he] at hp
        simpa [Option.all] using hp
    | and_step hra hrb he iha ihb =>
        have hp := ((steps_preserve_legal _ iha).2.2.2.1 _ (isLegal_lt _ ihb) ihb).1
        rw [he] at hp
        simpa [Option.all] using hp
    | or_step hra hrb he iha ihb =>
        have hp := ((steps_preserve_legal _ iha).2.2.2.1 _ (isLegal_lt _ ihb) ihb).2
        rw [he] at hp
        simpa [Option.all] using hp
    | not_step hr he ih =>
        have hp := (steps_preserve_legal _ ih).2.2.2.2
        rw [he] at hp
        simpa [Option.all] using hp
  refine ⟨key, ?_, key⟩
  rcases isLegal_cases s key with rfl | rfl | rfl | rfl | rfl | rfl | rfl | rfl | rfl |
    rfl | rfl | rfl | rfl <;> decide

/-- Witness for C5 at the default-constructed state, which is reachable by
construction. -/
theorem C5_reachable_states_legal_witness :
    isLegal BooleanOps.new_data = true
    ∧ (PackedBooleanData.not_null BooleanOps.new_data = some true →
        PackedBooleanData.default_value BooleanOps.new_data ≠ some none ∧
        PackedBooleanData.value BooleanOps.new_data ≠ some none)
    ∧ (decode_state BooleanOps.new_data).toOption.isSome = true :=
  C5_reachable_states_legal BooleanOps.new_data Reachable.init
